import Mathlib

/-!
Verification of `inventory_dynamic.py`, a dynamic-inventory generator.

The script builds a JSON document (a Python `dict`) describing hosts and
groups, dispatching on the `ANSIBLE_INVENTORY_SOURCE` environment variable,
and prints it from a small command-line dispatcher.

We embed the JSON data model shallowly: Python dicts become association
lists of `String × JValue` (Python 3 dicts preserve insertion order, and
`dict.update` overwrites existing keys in place and appends new ones), the
process environment becomes a function `String → Option String`
(`os.getenv` returning `None` for absent variables), and the `__main__`
block becomes a function from the argument vector to the produced output
and exit code.
-/

set_option autoImplicit false

namespace InventoryDynamic

/-- JSON values as produced by the script (`json.dumps` of Python data:
strings, `None` → `null`, lists, and insertion-ordered dicts). -/
inductive JValue where
  | str : String → JValue
  | null : JValue
  | arr : List JValue → JValue
  | obj : List (String × JValue) → JValue
deriving Repr

/-- Key lookup in an insertion-ordered object (Python `d[k]` / `k in d`). -/
def jLookup (fields : List (String × JValue)) (k : String) : Option JValue :=
  (fields.find? (fun p => p.1 == k)).map (fun p => p.2)

/-- Writing one key into a Python dict: an existing key is overwritten in
place (its position is kept), a new key is appended at the end. -/
def updateKey (base : List (String × JValue)) (k : String) (v : JValue) :
    List (String × JValue) :=
  if base.any (fun p => p.1 == k) then
    base.map (fun p => if p.1 == k then (k, v) else p)
  else
    base ++ [(k, v)]

/-- Python `base.update(upd)`: every top-level key of `upd` is written into
`base`, overwriting keys of the same name; keys absent from `upd` are left
unchanged (shallow merge). -/
def objUpdate (base upd : List (String × JValue)) : List (String × JValue) :=
  upd.foldl (fun acc p => updateKey acc p.1 p.2) base

/-- Embeds an `os.getenv` result into JSON: a value when present,
`JValue.null` when absent (Python `None` serializes to `null`). -/
def jsonOfEnv : Option String → JValue
  | some s => JValue.str s
  | none => JValue.null

/-- Function `get_aws_inventory` (line 51): stub, returns the empty
mapping. -/
def get_aws_inventory : List (String × JValue) := []

/-- Function `get_do_inventory` (line 56): stub, returns the empty
mapping. -/
def get_do_inventory : List (String × JValue) := []

/-- The base inventory structure (lines 16–20):
`{"_meta": {"hostvars": {}}}`. -/
def base_inventory : List (String × JValue) :=
  [("_meta", JValue.obj [("hostvars", JValue.obj [])])]

/-- Function `get_inventory` (lines 12–49): start from the base
structure, then dispatch on `ANSIBLE_INVENTORY_SOURCE` and `dict.update`
the chosen adapter's result into it; any unrecognized or absent selector
takes the default static branch. -/
def get_inventory (env : String → Option String) : List (String × JValue) :=
  if env "ANSIBLE_INVENTORY_SOURCE" = some "aws" then
    objUpdate base_inventory get_aws_inventory
  else if env "ANSIBLE_INVENTORY_SOURCE" = some "digitalocean" then
    objUpdate base_inventory get_do_inventory
  else
    objUpdate base_inventory
      [("servers", JValue.obj
          [("hosts", JValue.arr [JValue.str "dev-server"]),
           ("vars", JValue.obj
              [("ansible_user",
                  JValue.str ((env "ANSIBLE_USER").getD "ansible")),
               ("ansible_become_password",
                  jsonOfEnv (env "ANSIBLE_PASSWORD"))])]),
       ("_meta", JValue.obj
          [("hostvars", JValue.obj
              [("dev-server", JValue.obj
                  [("ansible_host", JValue.str "192.168.88.2"),
                   ("ansible_password",
                      jsonOfEnv (env "ANSIBLE_PASSWORD"))])])])]

/-- The fully merged document the default static branch produces: the
base `_meta` key is overwritten in place and `servers` is appended. -/
def default_document (env : String → Option String) :
    List (String × JValue) :=
  [("_meta", JValue.obj
      [("hostvars", JValue.obj
          [("dev-server", JValue.obj
              [("ansible_host", JValue.str "192.168.88.2"),
               ("ansible_password",
                  jsonOfEnv (env "ANSIBLE_PASSWORD"))])])]),
   ("servers", JValue.obj
      [("hosts", JValue.arr [JValue.str "dev-server"]),
       ("vars", JValue.obj
          [("ansible_user",
              JValue.str ((env "ANSIBLE_USER").getD "ansible")),
           ("ansible_become_password",
              jsonOfEnv (env "ANSIBLE_PASSWORD"))])])]

/-- What the `__main__` block writes to standard output: either a JSON
document via `json.dumps`, or the usage message built from `sys.argv[0]`. -/
inductive Output where
  | json : JValue → Output
  | usage : String → Output
deriving Repr

/-- The `__main__` block (lines 61–70). `prog` is `sys.argv[0]`, `args`
the remaining arguments, so `len(sys.argv) == 2` is `args.length = 1`.
Returns what is printed and the process exit code (`print` then fall off
the end is exit 0; the usage branch calls `sys.exit(1)`). -/
def main_run (prog : String) (args : List String)
    (env : String → Option String) : Output × Nat :=
  if args.length = 1 ∧ args[0]? = some "--list" then
    (Output.json (JValue.obj (get_inventory env)), 0)
  else if args.length = 2 ∧ args[0]? = some "--host" then
    (Output.json (JValue.obj []), 0)
  else
    (Output.usage prog, 1)

/-- Value of a variable in a group's `vars` mapping. -/
def group_var (doc : List (String × JValue)) (g k : String) : Option JValue :=
  match jLookup doc g with
  | some (JValue.obj fs) =>
    match jLookup fs "vars" with
    | some (JValue.obj vs) => jLookup vs k
    | _ => none
  | _ => none

/-- Value of a variable in `_meta.hostvars[h]`. -/
def hostvar (doc : List (String × JValue)) (h k : String) : Option JValue :=
  match jLookup doc "_meta" with
  | some (JValue.obj fs) =>
    match jLookup fs "hostvars" with
    | some (JValue.obj hv) =>
      match jLookup hv h with
      | some (JValue.obj vs) => jLookup vs k
      | _ => none
    | _ => none
  | _ => none

/-- The entry of `_meta.hostvars` for host `h`, as a whole. -/
def hostvarsEntry (doc : List (String × JValue)) (h : String) :
    Option JValue :=
  match jLookup doc "_meta" with
  | some (JValue.obj fs) =>
    match jLookup fs "hostvars" with
    | some (JValue.obj hv) => jLookup hv h
    | _ => none
  | _ => none

/-- All hostnames listed in any group's `hosts` list (every key except
`_meta` is a group). -/
def groupHosts (doc : List (String × JValue)) : List String :=
  doc.foldr
    (fun p acc =>
      if p.1 == "_meta" then acc
      else
        (match p.2 with
         | JValue.obj fs =>
           match jLookup fs "hosts" with
           | some (JValue.arr hs) =>
             hs.filterMap (fun v =>
               match v with
               | JValue.str s => some s
               | _ => none)
           | _ => []
         | _ => []) ++ acc)
    []

/-- The keys of `_meta.hostvars`. -/
def hostvarKeys (doc : List (String × JValue)) : List String :=
  match jLookup doc "_meta" with
  | some (JValue.obj fs) =>
    match jLookup fs "hostvars" with
    | some (JValue.obj hv) => hv.map (fun p => p.1)
    | _ => []
  | _ => []

/-- A group descriptor is well formed: a `hosts` list of strings and a
`vars` object. -/
def groupOk (v : JValue) : Bool :=
  match v with
  | JValue.obj fs =>
    (match jLookup fs "hosts" with
     | some (JValue.arr hs) =>
       hs.all (fun x => match x with | JValue.str _ => true | _ => false)
     | _ => false)
    && (match jLookup fs "vars" with
        | some (JValue.obj _) => true
        | _ => false)
  | _ => false

/-- The `_meta` value is well formed: a `hostvars` object whose entries
are objects. -/
def metaOk (v : JValue) : Bool :=
  match v with
  | JValue.obj fs =>
    match jLookup fs "hostvars" with
    | some (JValue.obj hv) =>
      hv.all (fun p =>
        match p.2 with | JValue.obj _ => true | _ => false)
    | _ => false
  | _ => false

/-- A well-formed inventory document (output schema of §6): a `_meta` key
holding a well-formed hostvars section, every other key a well-formed
group. -/
def docOk (doc : List (String × JValue)) : Bool :=
  (jLookup doc "_meta").isSome
  && doc.all (fun p => if p.1 == "_meta" then metaOk p.2 else groupOk p.2)

/-- An environment with every variable absent. -/
def envEmpty : String → Option String := fun _ => none

/-- An environment selecting the AWS adapter and nothing else. -/
def envAws : String → Option String :=
  fun n => if n = "ANSIBLE_INVENTORY_SOURCE" then some "aws" else none

/-- An environment selecting the DigitalOcean adapter and nothing else. -/
def envDo : String → Option String :=
  fun n => if n = "ANSIBLE_INVENTORY_SOURCE" then some "digitalocean" else none

/-- An environment differing from `envEmpty` only on a variable the script
never reads. -/
def envNoise : String → Option String :=
  fun n => if n = "UNRELATED_VARIABLE" then some "noise" else none

/-- Evaluation of `get_inventory`: the recognized selectors leave the base
document unchanged (the stubs are empty), any other selector produces the
merged default document. -/
theorem get_inventory_eq (env : String → Option String) :
    get_inventory env =
      if env "ANSIBLE_INVENTORY_SOURCE" = some "aws" then base_inventory
      else if env "ANSIBLE_INVENTORY_SOURCE" = some "digitalocean" then
        base_inventory
      else default_document env := by
  unfold get_inventory
  split_ifs <;> rfl

/-- Shape of a `--list` invocation: `len(sys.argv) == 2 and
sys.argv[1] == '--list'` holds exactly when the argument list is
`["--list"]`. -/
theorem shape_list_iff (args : List String) :
    (args.length = 1 ∧ args[0]? = some "--list") ↔ args = ["--list"] := by
  cases args with
  | nil => simp
  | cons a t =>
    cases t with
    | nil => simp
    | cons b u => simp

/-- Shape of a `--host` invocation: `len(sys.argv) == 3 and
sys.argv[1] == '--host'` holds exactly when the argument list is
`["--host", h]` for some hostname `h`. -/
theorem shape_host_iff (args : List String) :
    (args.length = 2 ∧ args[0]? = some "--host") ↔
      ∃ h, args = ["--host", h] := by
  cases args with
  | nil => simp
  | cons a t =>
    cases t with
    | nil => simp
    | cons b u =>
      cases u with
      | nil => simp [eq_comm]
      | cons c v => simp

/-- C1: `get_inventory` dispatches on the `ANSIBLE_INVENTORY_SOURCE`
selector: the exact value `aws` selects the AWS adapter, the exact value
`digitalocean` selects the DigitalOcean adapter, and any other value
(including absence) yields the default/static merged document; the
branches are mutually exclusive, so exactly one adapter is used per
invocation. -/
theorem claim_source_dispatch (env : String → Option String) :
    get_inventory env =
      if env "ANSIBLE_INVENTORY_SOURCE" = some "aws" then
        objUpdate base_inventory get_aws_inventory
      else if env "ANSIBLE_INVENTORY_SOURCE" = some "digitalocean" then
        objUpdate base_inventory get_do_inventory
      else default_document env := by
  rw [get_inventory_eq env]
  split_ifs <;> rfl

/-- C2: on the default/static path the document has exactly the keys
`_meta` and `servers` (so exactly one group, `servers`), the `servers`
group has hosts exactly `["dev-server"]` and vars mapping `ansible_user`
to `ANSIBLE_USER` with fallback `"ansible"` and `ansible_become_password`
to `ANSIBLE_PASSWORD`, and `_meta.hostvars` has exactly one entry,
`dev-server`, carrying the fixed address `192.168.88.2` and the
`ANSIBLE_PASSWORD` value. -/
theorem claim_default_document_fields (env : String → Option String)
    (h1 : env "ANSIBLE_INVENTORY_SOURCE" ≠ some "aws")
    (h2 : env "ANSIBLE_INVENTORY_SOURCE" ≠ some "digitalocean") :
    (get_inventory env).map Prod.fst = ["_meta", "servers"] ∧
    jLookup (get_inventory env) "servers" = some (JValue.obj
      [("hosts", JValue.arr [JValue.str "dev-server"]),
       ("vars", JValue.obj
          [("ansible_user",
              JValue.str ((env "ANSIBLE_USER").getD "ansible")),
           ("ansible_become_password",
              jsonOfEnv (env "ANSIBLE_PASSWORD"))])]) ∧
    jLookup (get_inventory env) "_meta" = some (JValue.obj
      [("hostvars", JValue.obj
          [("dev-server", JValue.obj
              [("ansible_host", JValue.str "192.168.88.2"),
               ("ansible_password",
                  jsonOfEnv (env "ANSIBLE_PASSWORD"))])])]) := by
  rw [get_inventory_eq env, if_neg h1, if_neg h2]
  exact ⟨rfl, rfl, rfl⟩

/-- Witness for C2 at the empty environment: the fallback username
`ansible` is used and both password fields are `null`. -/
theorem claim_default_document_fields_witness :
    (get_inventory envEmpty).map Prod.fst = ["_meta", "servers"] ∧
    jLookup (get_inventory envEmpty) "servers" = some (JValue.obj
      [("hosts", JValue.arr [JValue.str "dev-server"]),
       ("vars", JValue.obj
          [("ansible_user", JValue.str "ansible"),
           ("ansible_become_password", JValue.null)])]) ∧
    jLookup (get_inventory envEmpty) "_meta" = some (JValue.obj
      [("hostvars", JValue.obj
          [("dev-server", JValue.obj
              [("ansible_host", JValue.str "192.168.88.2"),
               ("ansible_password", JValue.null)])])]) :=
  claim_default_document_fields envEmpty
    (fun h => Option.noConfusion h) (fun h => Option.noConfusion h)

/-- C3, counterexample: with every variable absent (default source),
`--host dev-server` prints the empty mapping `{}`, while the `--list`
output of the same environment has a non-empty
`_meta.hostvars["dev-server"]` entry; the two differ, so `--host` does
not print the host's variable mapping. -/
theorem claim_host_lookup_counterexample :
    (main_run "inventory_dynamic.py" ["--host", "dev-server"] envEmpty).1
        = Output.json (JValue.obj []) ∧
    hostvarsEntry (get_inventory envEmpty) "dev-server"
        = some (JValue.obj
            [("ansible_host", JValue.str "192.168.88.2"),
             ("ansible_password", JValue.null)]) ∧
    JValue.obj
        [("ansible_host", JValue.str "192.168.88.2"),
         ("ansible_password", JValue.null)] ≠ JValue.obj [] := by
  refine ⟨rfl, rfl, ?_⟩
  simp

/-- C3, amended: for every hostname `h`, invoking the program with
exactly the two arguments `--host` and `h` prints the empty JSON mapping
to standard output and exits with code 0, regardless of `h` and of the
environment (the per-host mode is a stub that ignores the hostname). -/
theorem claim_host_mode_stub (prog h : String)
    (env : String → Option String) :
    main_run prog ["--host", h] env = (Output.json (JValue.obj []), 0) :=
  rfl

/-- C4: the program exits with code 0 printing JSON exactly when the
invocation is `--list` with exactly one argument or `--host <hostname>`
with exactly two arguments; every other invocation shape prints the usage
message (built from the program name) to standard output and exits with
code 1. -/
theorem claim_cli_shapes (prog : String) (args : List String)
    (env : String → Option String) :
    (((main_run prog args env).2 = 0 ∧
        ∃ v, (main_run prog args env).1 = Output.json v) ↔
      (args = ["--list"] ∨ ∃ h, args = ["--host", h])) ∧
    (¬(args = ["--list"] ∨ ∃ h, args = ["--host", h]) →
      main_run prog args env = (Output.usage prog, 1)) := by
  unfold main_run
  split_ifs with hl hh
  · have hshape := (shape_list_iff args).mp hl
    constructor
    · simp [hshape]
    · intro hn
      exact absurd (Or.inl hshape) hn
  · have hshape := (shape_host_iff args).mp hh
    constructor
    · simp [hshape]
    · intro hn
      exact absurd (Or.inr hshape) hn
  · have hn : ¬(args = ["--list"] ∨ ∃ h, args = ["--host", h]) := by
      rintro (he | ⟨h, he⟩)
      · exact hl ((shape_list_iff args).mpr he)
      · exact hh ((shape_host_iff args).mpr ⟨h, he⟩)
    constructor
    · simp [hn]
    · intro _
      rfl

/-- Witness for C4: a wrong flag yields the usage message and exit code
1, and a `--list` invocation yields JSON and exit code 0. -/
theorem claim_cli_shapes_witness :
    main_run "inventory_dynamic.py" ["--bogus"] envEmpty
      = (Output.usage "inventory_dynamic.py", 1) :=
  (claim_cli_shapes "inventory_dynamic.py" ["--bogus"] envEmpty).2
    (by rintro (he | ⟨h, he⟩) <;> simp_all)

/-- C5: for every environment, the document returned by `get_inventory`
has a `_meta` key holding an object whose `hostvars` key holds a mapping
(an object). -/
theorem claim_meta_hostvars_always (env : String → Option String) :
    ∃ hv, jLookup (get_inventory env) "_meta"
        = some (JValue.obj [("hostvars", JValue.obj hv)]) := by
  rw [get_inventory_eq env]
  split_ifs
  · exact ⟨[], rfl⟩
  · exact ⟨[], rfl⟩
  · exact ⟨_, rfl⟩

/-- C6: the AWS and DigitalOcean adapters each return the empty mapping,
the merge leaves keys absent from the adapter result unchanged, and with
the selector set to `aws` or `digitalocean` the full document is exactly
the base document with an empty `_meta.hostvars`. -/
theorem claim_stub_adapters :
    get_aws_inventory = [] ∧
    get_do_inventory = [] ∧
    (∀ base : List (String × JValue), objUpdate base [] = base) ∧
    ∀ env : String → Option String,
      (env "ANSIBLE_INVENTORY_SOURCE" = some "aws" ∨
        env "ANSIBLE_INVENTORY_SOURCE" = some "digitalocean") →
      get_inventory env
        = [("_meta", JValue.obj [("hostvars", JValue.obj [])])] := by
  refine ⟨rfl, rfl, fun base => rfl, fun env h => ?_⟩
  rw [get_inventory_eq env]
  split_ifs with ha hd
  · rfl
  · rfl
  · rcases h with h | h
    · exact absurd h ha
    · exact absurd h hd

/-- Witness for C6: with the selector set to `aws`, the document is the
bare base structure. -/
theorem claim_stub_adapters_witness :
    get_inventory envAws
      = [("_meta", JValue.obj [("hostvars", JValue.obj [])])] :=
  claim_stub_adapters.2.2.2 envAws (Or.inl rfl)

/-- C7: the document depends only on the three consumed environment
variables: two environments agreeing on `ANSIBLE_INVENTORY_SOURCE`,
`ANSIBLE_USER` and `ANSIBLE_PASSWORD` produce equal documents (so a fixed
environment always reproduces the same output). -/
theorem claim_env_determinism (env1 env2 : String → Option String)
    (h1 : env1 "ANSIBLE_INVENTORY_SOURCE" = env2 "ANSIBLE_INVENTORY_SOURCE")
    (h2 : env1 "ANSIBLE_USER" = env2 "ANSIBLE_USER")
    (h3 : env1 "ANSIBLE_PASSWORD" = env2 "ANSIBLE_PASSWORD") :
    get_inventory env1 = get_inventory env2 := by
  unfold get_inventory
  rw [h1, h2, h3]

/-- Witness for C7: an unrelated variable does not change the output. -/
theorem claim_env_determinism_witness :
    get_inventory envEmpty = get_inventory envNoise :=
  claim_env_determinism envEmpty envNoise rfl rfl rfl

/-- C8: the static path has no failure modes: every environment yields a
well-formed document, and absent variables degrade gracefully — an absent
`ANSIBLE_USER` falls back to `ansible` and an absent `ANSIBLE_PASSWORD`
becomes `null` in both password fields. -/
theorem claim_static_no_failure (env : String → Option String) :
    docOk (get_inventory env) = true ∧
    (env "ANSIBLE_INVENTORY_SOURCE" ≠ some "aws" →
      env "ANSIBLE_INVENTORY_SOURCE" ≠ some "digitalocean" →
      (env "ANSIBLE_USER" = none →
        group_var (get_inventory env) "servers" "ansible_user"
          = some (JValue.str "ansible")) ∧
      (env "ANSIBLE_PASSWORD" = none →
        group_var (get_inventory env) "servers" "ansible_become_password"
            = some JValue.null ∧
        hostvar (get_inventory env) "dev-server" "ansible_password"
            = some JValue.null)) := by
  rw [get_inventory_eq env]
  split_ifs with ha hd
  · exact ⟨rfl, fun h1 _ => absurd ha h1⟩
  · exact ⟨rfl, fun _ h2 => absurd hd h2⟩
  · refine ⟨rfl, fun _ _ => ⟨fun hu => ?_, fun hp => ?_⟩⟩
    · simp [group_var, default_document, jLookup, hu]
    · simp [group_var, hostvar, default_document, jLookup, jsonOfEnv, hp]

/-- Witness for C8 at the empty environment: the document is well formed,
the username falls back to `ansible`, and the password fields are both
`null`. -/
theorem claim_static_no_failure_witness :
    docOk (get_inventory envEmpty) = true ∧
    group_var (get_inventory envEmpty) "servers" "ansible_user"
      = some (JValue.str "ansible") ∧
    group_var (get_inventory envEmpty) "servers" "ansible_become_password"
      = some JValue.null ∧
    hostvar (get_inventory envEmpty) "dev-server" "ansible_password"
      = some JValue.null := by
  obtain ⟨hok, hrest⟩ := claim_static_no_failure envEmpty
  have h := hrest (fun h => Option.noConfusion h)
    (fun h => Option.noConfusion h)
  exact ⟨hok, h.1 rfl, (h.2 rfl).1, (h.2 rfl).2⟩

/-- C9: for every environment, a hostname appears in some group's
`hosts` list exactly when it is a key of `_meta.hostvars` (both are
`dev-server` on the default path, and both are empty on the stub
provider paths). -/
theorem claim_hosts_hostvars_consistent (env : String → Option String)
    (h : String) :
    h ∈ groupHosts (get_inventory env) ↔
      h ∈ hostvarKeys (get_inventory env) := by
  rw [get_inventory_eq env]
  split_ifs <;> exact Iff.rfl

/-- C10: on the default path, the group variable
`servers.vars["ansible_become_password"]` and the host variable
`_meta.hostvars["dev-server"]["ansible_password"]` are equal — both carry
the `ANSIBLE_PASSWORD` environment value (both `null` when it is unset). -/
theorem claim_password_agreement (env : String → Option String)
    (h1 : env "ANSIBLE_INVENTORY_SOURCE" ≠ some "aws")
    (h2 : env "ANSIBLE_INVENTORY_SOURCE" ≠ some "digitalocean") :
    group_var (get_inventory env) "servers" "ansible_become_password"
        = some (jsonOfEnv (env "ANSIBLE_PASSWORD")) ∧
    hostvar (get_inventory env) "dev-server" "ansible_password"
        = some (jsonOfEnv (env "ANSIBLE_PASSWORD")) := by
  rw [get_inventory_eq env, if_neg h1, if_neg h2]
  exact ⟨rfl, rfl⟩

/-- Witness for C10 at the empty environment: both fields are `null`. -/
theorem claim_password_agreement_witness :
    group_var (get_inventory envEmpty) "servers" "ansible_become_password"
        = some JValue.null ∧
    hostvar (get_inventory envEmpty) "dev-server" "ansible_password"
        = some JValue.null :=
  claim_password_agreement envEmpty
    (fun h => Option.noConfusion h) (fun h => Option.noConfusion h)

end InventoryDynamic
